import Mathlib

/-
Verification of the follow-relationship state machine of
packages/backend/src/core/ChannelFollowingService.ts (class UserFollowingService)
and packages/backend/src/core/ChannelService.ts, as a shallow embedding.

Stores (TypeORM repositories) are embedded as lists inside a `State` record;
each service method becomes a function `State → ... → Result` where `Result`
carries the post-state and an optional raised error.  Identifiers are `Nat`
(opaque ids).  Wall-clock fields (`createdAt`) are not modelled.  Rendered
ActivityPub payloads are modelled structurally by the `Act` inductive; the
delivery queue and the event/notification emissions are lists in the state.

Entities referenced by the service but not present under src/ (the User,
Channel, Following, FollowRequest and ChannelFollowing entity files, the
UserBlockingService and the AccountMoveService) are modelled from the spec;
each such definition carries a doc comment saying so.
-/

set_option maxHeartbeats 1000000

namespace ChannelFollow

/-- Modelled from the spec: the User entity is not under src/.  Fields are the
Actor fields of spec §3 that ChannelFollowingService reads: `host` (none ⇒
local), `inbox`/`sharedInbox` delivery addresses, `isBot`, `movedToUri`
(identity migration), `alsoKnownAs` (prior-identity ids used by the
Identity Resolver / AccountMoveService contract), and the denormalized
`followingCount`/`followersCount` counters. -/
structure User where
  id : Nat
  host : Option Nat
  inbox : Option Nat
  sharedInbox : Option Nat
  isBot : Bool
  movedToUri : Option Nat
  alsoKnownAs : List Nat
  followingCount : Int
  followersCount : Int
deriving Repr, DecidableEq

/-- Modelled from the spec: the Channel entity is not under src/.  The service
reads, on the followee channel, `isLocked` (spec §3 actor flag), the
local/remote classification (`host`) and `inbox` for deliveries, and the
`user` relation (the owner) in insertFollowingDoc's self-follow guard, which
is modelled by `ownerId`. -/
structure Channel where
  id : Nat
  ownerId : Nat
  host : Option Nat
  inbox : Option Nat
  isLocked : Bool
deriving Repr, DecidableEq

/-- Modelled from the spec: the UserProfile entity is not under src/.  The
service reads `carefulBot` and `autoAcceptFollowed` from the followee's
profile row (looked up by the followee's id). -/
structure Profile where
  userId : Nat
  carefulBot : Bool
  autoAcceptFollowed : Bool
deriving Repr, DecidableEq

/-- Modelled from the spec: the Following entity (followingsRepository rows) is
not under src/.  Spec §3: an established edge followerId → followeeId,
unique on the pair; the follower/followee relations resolve through the
users store. -/
structure Following where
  id : Nat
  followerId : Nat
  followeeId : Nat
deriving Repr, DecidableEq

/-- Modelled from the spec: the FollowRequest entity (followRequestsRepository
rows) is not under src/.  Spec §3: a pending follow followerId → followeeId
with a nullable protocol `requestId` and denormalized host/inbox snapshots,
unique on the pair. -/
structure FollowRequest where
  id : Nat
  followerId : Nat
  followeeId : Nat
  requestId : Option Nat
  followerHost : Option Nat
  followerInbox : Option Nat
  followerSharedInbox : Option Nat
  followeeHost : Option Nat
  followeeInbox : Option Nat
  followeeSharedInbox : Option Nat
deriving Repr, DecidableEq

/-- The ChannelFollowRequest entity (models/entities/ChannelFollowRequest.ts):
row id, followee channel id, follower user id, nullable requestId.
(`createdAt` is wall clock and not modelled.  The entity's unique-index
decorator names `followeeId`, a column the entity does not have; the unique
pair enforced by the storage layer is modelled as `(channelId, followerId)`,
the pair every query in the service uses, per spec §3's uniqueness clause.) -/
structure ChannelFollowRequest where
  id : Nat
  channelId : Nat
  followerId : Nat
  requestId : Option Nat
deriving Repr, DecidableEq

/-- Modelled from the spec: the ChannelFollowing entity is not under src/; its
fields are the ones ChannelService.isFolloing queries (`followeeId` = channel,
`followerId` = user). -/
structure ChannelFollowing where
  id : Nat
  followeeId : Nat
  followerId : Nat
deriving Repr, DecidableEq

/-- Modelled from the spec: the Blocking Oracle (UserBlockingService) is not
under src/.  Spec §6: `isBlocked(blockerActorId, blockedActorId) -> bool`,
backed by blocking rows. -/
structure Blocking where
  blockerId : Nat
  blockeeId : Nat
deriving Repr, DecidableEq

/-- Rendered ActivityPub activity shapes (ApRendererService output, spec §6):
a Follow with actor pair and optional correlation id, wrapped by
Accept/Reject/Undo envelopes naming the responding actor. -/
inductive Act where
  | follow (followerId followeeId : Nat) (requestId : Option Nat)
  | accept (inner : Act) (actorId : Nat)
  | reject (inner : Act) (actorId : Nat)
  | undo (inner : Act) (actorId : Nat)
deriving Repr, DecidableEq

/-- An entry of the Federation Delivery Gateway queue:
`queueService.deliver(from, content, inbox, highPriority)`. -/
structure Delivery where
  fromId : Nat
  act : Act
  inbox : Option Nat
  highPriority : Bool
deriving Repr, DecidableEq

/-- Internal/main-stream events and notifications the service emits. -/
inductive Ev where
  | internalFollow (followerId followeeId : Nat)
  | internalUnfollow (followerId followeeId : Nat)
  | receiveFollowRequest (followeeId followerId : Nat)
  | meUpdated (userId : Nat)
  | notifReceiveFollowRequest (followeeId followerId requestRowId : Nat)
  | unfollowStream (followerId followeeId : Nat)
deriving Repr, DecidableEq

/-- Raised errors.  `blocking`/`blocked` are the IdentifiableErrors of follow
(codes 710e8fb0-… and 3338392a-…); `requestNotFound` is cancelFollowRequest's
17447091-…; `noFollowRequest` is acceptFollowRequest's 8884c2dd-…;
`blockingPlain`/`blockedPlain` are createFollowRequest's plain Errors;
`duplicateKey` a storage unique-constraint violation that is rethrown;
`notFound` a findOneByOrFail miss. -/
inductive Err where
  | blocking
  | blocked
  | requestNotFound
  | noFollowRequest
  | blockingPlain
  | blockedPlain
  | duplicateKey
  | notFound
deriving Repr, DecidableEq

/-- The whole persistent state: the repositories, the blocking rows, the
outbound delivery queue, the emitted events, and the id generator. -/
structure State where
  users : List User
  userProfiles : List Profile
  channels : List Channel
  followings : List Following
  followRequests : List FollowRequest
  channelFollowRequests : List ChannelFollowRequest
  channelFollowings : List ChannelFollowing
  blockings : List Blocking
  deliveries : List Delivery
  events : List Ev
  nextId : Nat
deriving Repr, DecidableEq

/-- Outcome of a service method: the post-state and the raised error, if any. -/
structure Result where
  state : State
  err : Option Err
deriving Repr, DecidableEq

/-- Actor argument shape of the service methods that take `{ id, host, uri,
inbox, sharedInbox }`-shaped parameters. -/
structure ActorRef where
  id : Nat
  host : Option Nat
  inbox : Option Nat
  sharedInbox : Option Nat
deriving Repr, DecidableEq

/-- Followee argument of insertFollowingDoc: the `channel` parameter, of which
the body reads `channel.id` and the owner relation `channel.user!.id`. -/
structure FolloweeRef where
  id : Nat
  ownerId : Nat
deriving Repr, DecidableEq

def User.toRef (u : User) : ActorRef :=
  ⟨u.id, u.host, u.inbox, u.sharedInbox⟩

def Channel.toRef (c : Channel) : ActorRef :=
  ⟨c.id, c.host, c.inbox, none⟩

/-- userEntityService.isRemoteUser: `host != null`. -/
def isRemoteUser (host : Option Nat) : Bool := host.isSome

/-- userEntityService.isLocalUser: `host == null`. -/
def isLocalUser (host : Option Nat) : Bool := !host.isSome

def findUser (s : State) (uid : Nat) : Option User :=
  s.users.find? (fun u => u.id == uid)

def findChannel (s : State) (cid : Nat) : Option Channel :=
  s.channels.find? (fun c => c.id == cid)

def findProfile (s : State) (uid : Nat) : Option Profile :=
  s.userProfiles.find? (fun p => p.userId == uid)

/-- Modelled from the spec: userBlockingService.checkBlocked (the Blocking
Oracle, spec §6) answers whether a blocking row blocker → blockee exists. -/
def checkBlocked (s : State) (blockerId blockeeId : Nat) : Bool :=
  s.blockings.any (fun b => b.blockerId == blockerId && b.blockeeId == blockeeId)

/-- Modelled from the spec: userBlockingService.unblock removes the blocking
row blocker → blockee (spec §4.1 step 3, auto-unblock). -/
def unblock (s : State) (blockerId blockeeId : Nat) : State :=
  { s with blockings :=
      s.blockings.filter (fun b => !(b.blockerId == blockerId && b.blockeeId == blockeeId)) }

def hasFollowing (s : State) (followerId followeeId : Nat) : Bool :=
  s.followings.any (fun f => f.followerId == followerId && f.followeeId == followeeId)

def findFollowRequest (s : State) (followeeId followerId : Nat) : Option FollowRequest :=
  s.followRequests.find? (fun r => r.followeeId == followeeId && r.followerId == followerId)

def findChannelFollowRequest (s : State) (channelId followerId : Nat) : Option ChannelFollowRequest :=
  s.channelFollowRequests.find? (fun r => r.channelId == channelId && r.followerId == followerId)

def pushDelivery (s : State) (d : Delivery) : State :=
  { s with deliveries := d :: s.deliveries }

def pushEvent (s : State) (e : Ev) : State :=
  { s with events := e :: s.events }

def deleteChannelFollowRequestPair (s : State) (channelId followerId : Nat) : State :=
  let kept := s.channelFollowRequests.filter
    (fun r => !(r.channelId == channelId && r.followerId == followerId))
  { s with channelFollowRequests := kept }

def deleteFollowRequestPair (s : State) (followeeId followerId : Nat) : State :=
  let kept := s.followRequests.filter
    (fun r => !(r.followeeId == followeeId && r.followerId == followerId))
  { s with followRequests := kept }

def deleteFollowRequestById (s : State) (rid : Nat) : State :=
  { s with followRequests := s.followRequests.filter (fun r => !(r.id == rid)) }

def deleteFollowingById (s : State) (fid : Nat) : State :=
  { s with followings := s.followings.filter (fun f => !(f.id == fid)) }

def updateUser (s : State) (uid : Nat) (g : User → User) : State :=
  { s with users := s.users.map (fun u => if u.id == uid then g u else u) }

/-- Modelled from the spec: accountMoveService.validateAlsoKnownAs is not under
src/.  Spec §4.1 step 6 / §6 Identity Resolver: true when the follower has a
migrated-identity ancestor (a prior identity) that already holds a Following
edge to the followee; the service instantiates the per-ancestor check with
`followingsRepository.exist({ followeeId, followerId: ancestor })`. -/
def validateAlsoKnownAs (s : State) (follower : User) (followeeId : Nat) : Bool :=
  follower.alsoKnownAs.any (fun old => hasFollowing s old followeeId)

/-- insertFollowingDoc (ChannelFollowingService.ts lines 169-255).  Guard:
return when the follower is the channel's owner (`follower.id ===
channel.user!.id`).  Then insert a ChannelFollowRequest row for the pair; a
unique-constraint conflict is absorbed as `alreadyFollowed` when the follower
is remote and rethrown otherwise.  Then find the pair's request row and, when
present, delete it.  When not already followed, publish the internal `follow`
event (the payload's `followeeId` resolves to the channel parameter, named
`followee` in the source line 214) and re-read both actors with
findOneByOrFail (which fails when either id has no user row).  The remainder
of the method (main-stream publications, webhooks, notification) is commented
out in the source.  The `silent` flag is only read by that commented-out
code. -/
def insertFollowingDoc (s : State) (followee : FolloweeRef) (follower : ActorRef)
    (silent : Bool) : Result :=
  if follower.id == followee.ownerId then ⟨s, none⟩
  else
    let _ := silent
    let dup := (findChannelFollowRequest s followee.id follower.id).isSome
    if dup && !(isRemoteUser follower.host) then
      ⟨s, some .duplicateKey⟩
    else
      let alreadyFollowed := dup
      let s1 :=
        if dup then s
        else
          { s with
            channelFollowRequests :=
              { id := s.nextId, channelId := followee.id, followerId := follower.id,
                requestId := none } :: s.channelFollowRequests,
            nextId := s.nextId + 1 }
      let s2 :=
        match findChannelFollowRequest s1 followee.id follower.id with
        | some _ => deleteChannelFollowRequestPair s1 followee.id follower.id
        | none => s1
      if alreadyFollowed then ⟨s2, none⟩
      else
        let s3 := pushEvent s2 (.internalFollow follower.id followee.id)
        match findUser s3 followee.id, findUser s3 follower.id with
        | some _, some _ => ⟨s3, none⟩
        | _, _ => ⟨s3, some .notFound⟩

/-- createFollowRequest (lines 387-443).  Self-request guard; blocking check in
both directions raising plain blocking/blocked errors; insert the
FollowRequest row with denormalized host/inbox snapshots (inbox/sharedInbox
only snapshotted for remote actors); when the followee is local publish
receiveFollowRequest, meUpdated and the domain notification; when the
follower is local and the followee remote deliver a Follow activity whose
requestId defaults to a locally-minted correlation derived from the new
row's id. -/
def createFollowRequest (s : State) (follower followee : ActorRef)
    (requestId : Option Nat) : Result :=
  if follower.id == followee.id then ⟨s, none⟩
  else
    let blocking := checkBlocked s follower.id followee.id
    let blocked := checkBlocked s followee.id follower.id
    if blocking then ⟨s, some .blockingPlain⟩
    else if blocked then ⟨s, some .blockedPlain⟩
    else if (findFollowRequest s followee.id follower.id).isSome then
      -- the storage-layer unique constraint on the pair (spec §3)
      ⟨s, some .duplicateKey⟩
    else
      let fr : FollowRequest :=
        { id := s.nextId
          followerId := follower.id
          followeeId := followee.id
          requestId := requestId
          followerHost := follower.host
          followerInbox := if isRemoteUser follower.host then follower.inbox else none
          followerSharedInbox := if isRemoteUser follower.host then follower.sharedInbox else none
          followeeHost := followee.host
          followeeInbox := if isRemoteUser followee.host then followee.inbox else none
          followeeSharedInbox := if isRemoteUser followee.host then followee.sharedInbox else none }
      let s1 := { s with followRequests := fr :: s.followRequests, nextId := s.nextId + 1 }
      let s2 :=
        if isLocalUser followee.host then
          pushEvent
            (pushEvent (pushEvent s1 (.receiveFollowRequest followee.id follower.id))
              (.meUpdated followee.id))
            (.notifReceiveFollowRequest followee.id follower.id fr.id)
        else s1
      let s3 :=
        if isLocalUser follower.host && isRemoteUser followee.host then
          pushDelivery s2
            { fromId := follower.id,
              act := .follow follower.id followee.id (some (requestId.getD fr.id)),
              inbox := followee.inbox, highPriority := false }
        else s2
      ⟨s3, none⟩

/-- The body of follow after the two actors are resolved (lines 93-166).  The
source names the followee `channel` but reads it through the identifier
`followee` from line 101 on; both resolve to the channel argument.  Remote
follower blocked by the followee: deliver a courtesy Reject and return.
Remote follower with a stale local block of the followee: auto-unblock and
continue.  Otherwise blocking in either direction raises the
IdentifiableError with detail blocking resp. blocked.  Then the approval
decision (isLocked, carefulBot ∧ isBot, local follower → remote followee)
with the three auto-accept escapes, createFollowRequest when approval is
required and not auto-accepted, insertFollowingDoc otherwise, and the
Accept(Follow) delivery for a remote follower of a local followee. -/
def followResolved (s : State) (follower : User) (channel : Channel)
    (requestId : Option Nat) (silent : Bool) : Result :=
  match findProfile s channel.id with
  | none => ⟨s, some .notFound⟩
  | some followeeProfile =>
    let needApproval :=
      channel.isLocked || (followeeProfile.carefulBot && follower.isBot) ||
        (isLocalUser follower.host && isRemoteUser channel.host)
    let doRequest : Bool :=
      if needApproval then
        let a0 := hasFollowing s follower.id channel.id
        let a1 := a0 ||
          (!a0 && isLocalUser channel.host && followeeProfile.autoAcceptFollowed &&
            hasFollowing s channel.id follower.id)
        let a2 := a1 ||
          (channel.isLocked && !a1 && validateAlsoKnownAs s follower channel.id)
        !a2
      else false
    if doRequest then
      createFollowRequest s follower.toRef channel.toRef requestId
    else
      let r := insertFollowingDoc s ⟨channel.id, channel.ownerId⟩ follower.toRef silent
      match r.err with
      | some _ => r
      | none =>
        if isRemoteUser follower.host && isLocalUser channel.host then
          ⟨pushDelivery r.state
            { fromId := channel.id,
              act := .accept (.follow follower.id channel.id requestId) channel.id,
              inbox := follower.inbox, highPriority := false }, none⟩
        else r

/-- follow (lines 86-167): resolve both actors with findOneByOrFail, run the
blocking checks in both directions, then the branch structure of lines
99-111 followed by `followResolved`. -/
def follow (s : State) (followerId channelId : Nat) (requestId : Option Nat)
    (silent : Bool) : Result :=
  match findUser s followerId, findChannel s channelId with
  | some follower, some channel =>
    let blocking := checkBlocked s follower.id channel.id
    let blocked := checkBlocked s channel.id follower.id
    if isRemoteUser follower.host && blocked then
      ⟨pushDelivery s
        { fromId := channel.id,
          act := .reject (.follow follower.id channel.id requestId) channel.id,
          inbox := follower.inbox, highPriority := false }, none⟩
    else if isRemoteUser follower.host && blocking then
      followResolved (unblock s follower.id channel.id) follower channel requestId silent
    else if blocking then ⟨s, some .blocking⟩
    else if blocked then ⟨s, some .blocked⟩
    else followResolved s follower channel requestId silent
  | _, _ => ⟨s, some .notFound⟩

/-- unfollow (lines 257-313).  The lookup runs against the
channelFollowRequests store with `followerId := channel.id` and `channelId :=
followee.id` (the source's own argument wiring).  The guard on line 276 also
tests `following.followee`; the ChannelFollowRequest entity has no followee
column or relation, so that field is undefined and the guard always takes the
warn-and-return branch: the method never mutates any store.  The deletion,
the counter decrement and the Undo/Reject deliveries of lines 281-312 are
unreachable (they also read an identifier `follower` that is not in scope
there). -/
def unfollow (s : State) (channel : Channel) (followee : ActorRef)
    (silent : Bool) : Result :=
  let _ := silent
  match findChannelFollowRequest s followee.id channel.id with
  | none => ⟨s, none⟩
  | some following =>
    let followerRel : Option User := findUser s following.followerId
    let followeeRel : Option User := none
    if followerRel.isNone || followeeRel.isNone then ⟨s, none⟩
    else ⟨s, none⟩

def countNonMovedFollowees (s : State) (uid : Nat) : Nat :=
  (s.followings.filter (fun f =>
    f.followerId == uid &&
      match findUser s f.followeeId with
      | some fe => !fe.movedToUri.isSome
      | none => false)).length

def countNonMovedFollowers (s : State) (uid : Nat) : Nat :=
  (s.followings.filter (fun f =>
    f.followeeId == uid &&
      match findUser s f.followerId with
      | some fo => !fo.movedToUri.isSome
      | none => false)).length

/-- One iteration of decrementFollowing's slow-path loop (lines 352-381): skip
the endpoint when it has itself moved; otherwise overwrite its stored
counters with the full recounts over edges whose counterpart has not moved
(the counts relation-join drops edges whose counterpart user row is
missing). -/
def adjustMovedUserCounts (s : State) (u : User) : State :=
  if u.movedToUri.isSome then s
  else
    updateUser s u.id (fun x =>
      { x with
        followingCount := (countNonMovedFollowees s u.id : Int)
        followersCount := (countNonMovedFollowers s u.id : Int) })

/-- decrementFollowing (lines 315-385), the Counter Reconciler: publish the
internal unfollow event; when neither endpoint snapshot has movedToUri,
decrement the stored followingCount of the follower and followersCount of
the followee by one (the per-host federation statistics and chart updates
are fire-and-forget side collaborators, spec §4.5, and not part of the
relationship state); otherwise run the slow-path recount loop over
[follower, followee]. -/
def decrementFollowing (s : State) (follower followee : User) : Result :=
  let s0 := pushEvent s (.internalUnfollow follower.id followee.id)
  if !follower.movedToUri.isSome && !followee.movedToUri.isSome then
    let s1 := updateUser s0 follower.id (fun u => { u with followingCount := u.followingCount - 1 })
    let s2 := updateUser s1 followee.id (fun u => { u with followersCount := u.followersCount - 1 })
    ⟨s2, none⟩
  else
    let s1 := adjustMovedUserCounts s0 follower
    let s2 := adjustMovedUserCounts s1 followee
    ⟨s2, none⟩

/-- cancelFollowRequest (lines 445-479): when the followee is remote, render
the Undo(Follow) and deliver it if the follower is local (the source's TS
narrowing check); then require the request row (requestNotFound otherwise),
delete the pair's rows and publish meUpdated to the followee. -/
def cancelFollowRequest (s : State) (followee follower : ActorRef) : Result :=
  let s0 :=
    if isRemoteUser followee.host && isLocalUser follower.host then
      pushDelivery s
        { fromId := follower.id,
          act := .undo (.follow follower.id followee.id none) follower.id,
          inbox := followee.inbox, highPriority := false }
    else s
  match findFollowRequest s0 followee.id follower.id with
  | none => ⟨s0, some .requestNotFound⟩
  | some _ =>
    let s1 := deleteFollowRequestPair s0 followee.id follower.id
    ⟨pushEvent s1 (.meUpdated followee.id), none⟩

/-- acceptFollowRequest (lines 481-507): require the pending request
(noFollowRequest otherwise); call insertFollowingDoc passing the followee as
its channel parameter (for a user-typed followee the owner read by the
self-follow guard is the followee itself); on success deliver Accept(Follow)
echoing the stored requestId when the follower is remote and the followee
local, and publish meUpdated to the followee. -/
def acceptFollowRequest (s : State) (followee : ActorRef) (follower : User) : Result :=
  match findFollowRequest s followee.id follower.id with
  | none => ⟨s, some .noFollowRequest⟩
  | some request =>
    let r := insertFollowingDoc s ⟨followee.id, followee.id⟩ follower.toRef false
    match r.err with
    | some _ => r
    | none =>
      let s1 :=
        if isRemoteUser follower.host && isLocalUser followee.host then
          pushDelivery r.state
            { fromId := followee.id,
              act := .accept (.follow follower.id followee.id request.requestId) followee.id,
              inbox := follower.inbox, highPriority := false }
        else r.state
      ⟨pushEvent s1 (.meUpdated followee.id), none⟩

/-- The loop body of acceptAllFollowRequests: for each enumerated request,
findOneByOrFail the follower (a miss aborts the batch with the raised
error), then fire acceptFollowRequest without awaiting it, so its own
outcome does not abort the remaining requests. -/
def acceptAllGo (user : ActorRef) : State → List FollowRequest → Result
  | s, [] => ⟨s, none⟩
  | s, req :: rest =>
    match findUser s req.followerId with
    | none => ⟨s, some .notFound⟩
    | some follower => acceptAllGo user (acceptFollowRequest s user follower).state rest

/-- acceptAllFollowRequests (lines 509-523): enumerate the pending requests of
the followee once, then run the loop. -/
def acceptAllFollowRequests (s : State) (user : ActorRef) : Result :=
  acceptAllGo user s (s.followRequests.filter (fun r => r.followeeId == user.id))

/-- removeFollowRequest (lines 549-562): find the pair's request row; absent is
a silent no-op; present is deleted by row id. -/
def removeFollowRequest (s : State) (channel : Channel) (follower : ActorRef) : Result :=
  match findFollowRequest s channel.id follower.id with
  | none => ⟨s, none⟩
  | some request => ⟨deleteFollowRequestById s request.id, none⟩

/-- publishUnfollow (lines 601-618): main-stream unfollow publication and
webhook dispatch to the local follower, modelled as one emitted event. -/
def publishUnfollow (s : State) (followeeId followerId : Nat) : State :=
  pushEvent s (.unfollowStream followerId followeeId)

/-- rejectFollowRequest (lines 525-535): removeFollowRequest, then
publishUnfollow when the follower is local. -/
def rejectFollowRequest (s : State) (channel : Channel) (follower : ActorRef) : Result :=
  let r := removeFollowRequest s channel follower
  if isLocalUser follower.host then
    ⟨publishUnfollow r.state channel.id follower.id, none⟩
  else ⟨r.state, none⟩

/-- removeFollow (lines 564-585): find the edge with its two user relations; a
missing row or missing relation is a silent no-op; otherwise delete the edge
by row id and run the Counter Reconciler on the relation snapshots. -/
def removeFollow (s : State) (followee follower : ActorRef) : Result :=
  match s.followings.find? (fun f => f.followeeId == followee.id && f.followerId == follower.id) with
  | none => ⟨s, none⟩
  | some following =>
    match findUser s following.followeeId, findUser s following.followerId with
    | some followeeUser, some followerUser =>
      let s1 := deleteFollowingById s following.id
      decrementFollowing s1 followerUser followeeUser
    | _, _ => ⟨s, none⟩

/-- rejectFollow (lines 537-547): removeFollow, then publishUnfollow when the
follower is local. -/
def rejectFollow (s : State) (channel : Channel) (follower : ActorRef) : Result :=
  let r := removeFollow s channel.toRef follower
  if isLocalUser follower.host then
    ⟨publishUnfollow r.state channel.id follower.id, none⟩
  else ⟨r.state, none⟩

/-- ChannelService.isFolloing (ChannelService.ts lines 34-41): findOneBy on the
channel-followings store with followeeId = channelId and followerId = userId,
coerced to a boolean; a plain read that raises nothing. -/
def isFolloing (s : State) (channelId userId : Nat) : Bool :=
  (s.channelFollowings.find? (fun f => f.followeeId == channelId && f.followerId == userId)).isSome

/-- The Orchestrator operations of spec §2, as one step type. -/
inductive Op where
  | follow (followerId channelId : Nat) (requestId : Option Nat) (silent : Bool)
  | unfollow (channel : Channel) (followee : ActorRef) (silent : Bool)
  | createFollowRequest (follower followee : ActorRef) (requestId : Option Nat)
  | cancelFollowRequest (followee follower : ActorRef)
  | acceptFollowRequest (followee : ActorRef) (follower : User)
  | acceptAllFollowRequests (user : ActorRef)
  | rejectFollowRequest (channel : Channel) (follower : ActorRef)
  | rejectFollow (channel : Channel) (follower : ActorRef)
deriving Repr, DecidableEq

def applyOp (s : State) : Op → Result
  | .follow followerId channelId requestId silent => follow s followerId channelId requestId silent
  | .unfollow channel followee silent => unfollow s channel followee silent
  | .createFollowRequest follower followee requestId => createFollowRequest s follower followee requestId
  | .cancelFollowRequest followee follower => cancelFollowRequest s followee follower
  | .acceptFollowRequest followee follower => acceptFollowRequest s followee follower
  | .acceptAllFollowRequests user => acceptAllFollowRequests s user
  | .rejectFollowRequest channel follower => rejectFollowRequest s channel follower
  | .rejectFollow channel follower => rejectFollow s channel follower

/-- The spec §3 exclusivity invariant: no ordered pair has both a pending
request (in either request store) and an established Following edge. -/
def Inv (s : State) : Prop :=
  (∀ r ∈ s.followRequests, hasFollowing s r.followerId r.followeeId = false) ∧
  (∀ r ∈ s.channelFollowRequests, hasFollowing s r.followerId r.channelId = false)

instance : DecidablePred Inv := fun s => by
  unfold Inv
  infer_instance

/-! Small projection lemmas for the state mutators. -/

@[simp] theorem pushEvent_users (s : State) (e : Ev) : (pushEvent s e).users = s.users := rfl

@[simp] theorem pushEvent_followings (s : State) (e : Ev) :
    (pushEvent s e).followings = s.followings := rfl

@[simp] theorem pushEvent_followRequests (s : State) (e : Ev) :
    (pushEvent s e).followRequests = s.followRequests := rfl

@[simp] theorem pushEvent_channelFollowRequests (s : State) (e : Ev) :
    (pushEvent s e).channelFollowRequests = s.channelFollowRequests := rfl

@[simp] theorem pushEvent_deliveries (s : State) (e : Ev) :
    (pushEvent s e).deliveries = s.deliveries := rfl

@[simp] theorem pushDelivery_users (s : State) (d : Delivery) :
    (pushDelivery s d).users = s.users := rfl

@[simp] theorem pushDelivery_followings (s : State) (d : Delivery) :
    (pushDelivery s d).followings = s.followings := rfl

@[simp] theorem pushDelivery_followRequests (s : State) (d : Delivery) :
    (pushDelivery s d).followRequests = s.followRequests := rfl

@[simp] theorem pushDelivery_channelFollowRequests (s : State) (d : Delivery) :
    (pushDelivery s d).channelFollowRequests = s.channelFollowRequests := rfl

@[simp] theorem pushDelivery_deliveries (s : State) (d : Delivery) :
    (pushDelivery s d).deliveries = d :: s.deliveries := rfl

@[simp] theorem unblock_users (s : State) (a b : Nat) : (unblock s a b).users = s.users := rfl

@[simp] theorem unblock_followings (s : State) (a b : Nat) :
    (unblock s a b).followings = s.followings := rfl

@[simp] theorem unblock_followRequests (s : State) (a b : Nat) :
    (unblock s a b).followRequests = s.followRequests := rfl

@[simp] theorem unblock_channelFollowRequests (s : State) (a b : Nat) :
    (unblock s a b).channelFollowRequests = s.channelFollowRequests := rfl

@[simp] theorem updateUser_followings (s : State) (uid : Nat) (g : User → User) :
    (updateUser s uid g).followings = s.followings := rfl

@[simp] theorem updateUser_followRequests (s : State) (uid : Nat) (g : User → User) :
    (updateUser s uid g).followRequests = s.followRequests := rfl

@[simp] theorem updateUser_channelFollowRequests (s : State) (uid : Nat) (g : User → User) :
    (updateUser s uid g).channelFollowRequests = s.channelFollowRequests := rfl

/-- C10: ChannelService.isFolloing(channelId, userId) is true exactly when the
channel-followings store holds a record whose followeeId is the channelId and
whose followerId is the userId; the lookup is a plain read that raises
nothing regardless of whether such a channel or user exists. -/
theorem isFolloing_iff_record_exists (s : State) (channelId userId : Nat) :
    isFolloing s channelId userId = true ↔
      ∃ f ∈ s.channelFollowings, f.followeeId = channelId ∧ f.followerId = userId := by
  simp [isFolloing, List.find?_isSome, Bool.and_eq_true, beq_iff_eq]

/-- C6: unfollow on a pair with no stored Following edge raises nothing and
returns the state untouched: no deletion, no counter change, no delivery.
(In this source the early-return guard always fires, because the
ChannelFollowRequest row it inspects has no followee field, so the method
never mutates anything for any input.) -/
theorem unfollow_absent_edge_noop (s : State) (channel : Channel) (followee : ActorRef)
    (silent : Bool)
    (hnoedge : hasFollowing s channel.id followee.id = false) :
    unfollow s channel followee silent = ⟨s, none⟩ := by
  unfold unfollow
  cases h : findChannelFollowRequest s followee.id channel.id <;> simp

/-- C9: rejectFollowRequest on a pair with no pending FollowRequest completes
without raising (removeFollowRequest treats the missing row as a silent
no-op, unlike cancel/accept) and leaves the request store unchanged. -/
theorem rejectFollowRequest_absent_request_no_error (s : State) (channel : Channel)
    (follower : ActorRef)
    (hnone : findFollowRequest s channel.id follower.id = none) :
    (rejectFollowRequest s channel follower).err = none ∧
    (rejectFollowRequest s channel follower).state.followRequests = s.followRequests ∧
    (rejectFollowRequest s channel follower).state.channelFollowRequests =
      s.channelFollowRequests := by
  unfold rejectFollowRequest removeFollowRequest
  rw [hnone]
  by_cases h : isLocalUser follower.host <;> simp [h, publishUnfollow]

/-- C2: a locally-initiated follow against an active block in either direction
raises the BlockingViolation IdentifiableError, with detail blocking when the
follower blocks the followee and blocked when the followee blocks the
follower, and leaves the state untouched (no FollowRequest, no Following
edge). -/
theorem follow_local_blocking_violation (s : State)
    (followerId channelId : Nat) (requestId : Option Nat) (silent : Bool)
    (follower : User) (channel : Channel)
    (hf : findUser s followerId = some follower)
    (hc : findChannel s channelId = some channel)
    (hlocal : follower.host = none)
    (hbl : checkBlocked s follower.id channel.id = true ∨
           checkBlocked s channel.id follower.id = true) :
    (follow s followerId channelId requestId silent).state = s ∧
    (follow s followerId channelId requestId silent).err =
      some (if checkBlocked s follower.id channel.id then Err.blocking else Err.blocked) := by
  by_cases hb1 : checkBlocked s follower.id channel.id
  · simp [follow, hf, hc, isRemoteUser, hlocal, hb1]
  · have hb2 : checkBlocked s channel.id follower.id = true := by
      rcases hbl with h | h
      · exact absurd h hb1
      · exact h
    simp [follow, hf, hc, isRemoteUser, hlocal, hb1, hb2]

/-- C3: a follow from a remote follower whom the followee blocks returns
success after enqueuing a courtesy Reject activity to the follower's inbox;
no FollowRequest and no Following edge is created. -/
theorem follow_remote_blocked_courtesy_reject (s : State)
    (followerId channelId : Nat) (requestId : Option Nat) (silent : Bool)
    (follower : User) (channel : Channel)
    (hf : findUser s followerId = some follower)
    (hc : findChannel s channelId = some channel)
    (hremote : follower.host.isSome = true)
    (hblocked : checkBlocked s channel.id follower.id = true) :
    (follow s followerId channelId requestId silent).err = none ∧
    (follow s followerId channelId requestId silent).state.followings = s.followings ∧
    (follow s followerId channelId requestId silent).state.followRequests = s.followRequests ∧
    (follow s followerId channelId requestId silent).state.channelFollowRequests =
      s.channelFollowRequests ∧
    (follow s followerId channelId requestId silent).state.deliveries =
      { fromId := channel.id,
        act := .reject (.follow follower.id channel.id requestId) channel.id,
        inbox := follower.inbox, highPriority := false } :: s.deliveries := by
  simp [follow, hf, hc, isRemoteUser, hremote, hblocked]


/-! Concrete witness material. -/

def emptyState : State :=
  { users := [], userProfiles := [], channels := [], followings := [], followRequests := [],
    channelFollowRequests := [], channelFollowings := [], blockings := [], deliveries := [],
    events := [], nextId := 0 }

def localUser1 : User :=
  { id := 1, host := none, inbox := none, sharedInbox := none, isBot := false,
    movedToUri := none, alsoKnownAs := [], followingCount := 0, followersCount := 0 }

def remoteUser1 : User :=
  { id := 1, host := some 5, inbox := some 7, sharedInbox := none, isBot := false,
    movedToUri := none, alsoKnownAs := [], followingCount := 0, followersCount := 0 }

def plainChannel2 : Channel :=
  { id := 2, ownerId := 9, host := none, inbox := none, isLocked := false }

def blockingState12 : State :=
  { emptyState with users := [localUser1], channels := [plainChannel2],
                    blockings := [⟨1, 2⟩] }

def blockedState21 : State :=
  { emptyState with users := [remoteUser1], channels := [plainChannel2],
                    blockings := [⟨2, 1⟩] }

/-- Witness for C2 at a concrete input: user 1 (local) blocks channel 2 and
calls follow; the call raises the blocking detail and mutates nothing. -/
theorem follow_local_blocking_violation_witness :
    (findUser blockingState12 1 = some localUser1 ∧
      findChannel blockingState12 2 = some plainChannel2 ∧
      localUser1.host = none ∧
      checkBlocked blockingState12 localUser1.id plainChannel2.id = true) ∧
    ((follow blockingState12 1 2 none false).state = blockingState12 ∧
      (follow blockingState12 1 2 none false).err =
        some (if checkBlocked blockingState12 localUser1.id plainChannel2.id
          then Err.blocking else Err.blocked)) :=
  ⟨⟨by decide, by decide, by decide, by decide⟩,
    follow_local_blocking_violation blockingState12 1 2 none false localUser1 plainChannel2
      (by decide) (by decide) (by decide) (Or.inl (by decide))⟩

/-- Witness for C3 at a concrete input: channel 2 blocks remote user 1; follow
succeeds, enqueues the Reject to user 1's inbox and creates nothing. -/
theorem follow_remote_blocked_courtesy_reject_witness :
    (findUser blockedState21 1 = some remoteUser1 ∧
      findChannel blockedState21 2 = some plainChannel2 ∧
      remoteUser1.host.isSome = true ∧
      checkBlocked blockedState21 plainChannel2.id remoteUser1.id = true) ∧
    ((follow blockedState21 1 2 none false).err = none ∧
      (follow blockedState21 1 2 none false).state.followings = blockedState21.followings ∧
      (follow blockedState21 1 2 none false).state.followRequests =
        blockedState21.followRequests ∧
      (follow blockedState21 1 2 none false).state.channelFollowRequests =
        blockedState21.channelFollowRequests ∧
      (follow blockedState21 1 2 none false).state.deliveries =
        { fromId := plainChannel2.id,
          act := .reject (.follow remoteUser1.id plainChannel2.id none) plainChannel2.id,
          inbox := remoteUser1.inbox, highPriority := false } :: blockedState21.deliveries) :=
  ⟨⟨by decide, by decide, by decide, by decide⟩,
    follow_remote_blocked_courtesy_reject blockedState21 1 2 none false remoteUser1 plainChannel2
      (by decide) (by decide) (by decide) (by decide)⟩

/-- Witness for C6 at a concrete input: no Following edge between channel 2 and
actor 1; unfollow returns success with the state untouched. -/
theorem unfollow_absent_edge_noop_witness :
    hasFollowing emptyState plainChannel2.id 1 = false ∧
    unfollow emptyState plainChannel2 ⟨1, none, none, none⟩ false = ⟨emptyState, none⟩ :=
  ⟨by decide,
    unfollow_absent_edge_noop emptyState plainChannel2 ⟨1, none, none, none⟩ false (by decide)⟩

/-- Witness for C9 at a concrete input: no pending request for (channel 2,
user 1); rejectFollowRequest raises nothing and the request store is
untouched. -/
theorem rejectFollowRequest_absent_request_no_error_witness :
    findFollowRequest emptyState plainChannel2.id 1 = none ∧
    ((rejectFollowRequest emptyState plainChannel2 ⟨1, none, none, none⟩).err = none ∧
      (rejectFollowRequest emptyState plainChannel2 ⟨1, none, none, none⟩).state.followRequests =
        emptyState.followRequests ∧
      (rejectFollowRequest emptyState plainChannel2
          ⟨1, none, none, none⟩).state.channelFollowRequests =
        emptyState.channelFollowRequests) :=
  ⟨by decide,
    rejectFollowRequest_absent_request_no_error emptyState plainChannel2 ⟨1, none, none, none⟩
      (by decide)⟩


/-- C5 (amended): a local follower F of a locked followee L, with no relation
between F and L in either direction, no block, and no migrated-identity
ancestor of F holding an edge to L, gets a pending FollowRequest: follow
succeeds, prepends exactly one FollowRequest row for the pair, creates no
Following edge, and leaves the users store (hence every
followingCount/followersCount) unchanged. -/
theorem follow_locked_creates_follow_request (s : State)
    (followerId channelId : Nat) (requestId : Option Nat) (silent : Bool)
    (follower : User) (channel : Channel) (prof : Profile)
    (hf : findUser s followerId = some follower)
    (hc : findChannel s channelId = some channel)
    (hlocal : follower.host = none)
    (hlocked : channel.isLocked = true)
    (hnb1 : checkBlocked s follower.id channel.id = false)
    (hnb2 : checkBlocked s channel.id follower.id = false)
    (hprof : findProfile s channel.id = some prof)
    (hne1 : hasFollowing s follower.id channel.id = false)
    (hne2 : hasFollowing s channel.id follower.id = false)
    (hanc : validateAlsoKnownAs s follower channel.id = false)
    (hnoreq : findFollowRequest s channel.id follower.id = none)
    (hnself : follower.id ≠ channel.id) :
    (follow s followerId channelId requestId silent).err = none ∧
    (∃ fr, (follow s followerId channelId requestId silent).state.followRequests =
        fr :: s.followRequests ∧ fr.followerId = follower.id ∧ fr.followeeId = channel.id) ∧
    (follow s followerId channelId requestId silent).state.followings = s.followings ∧
    (follow s followerId channelId requestId silent).state.users = s.users ∧
    (follow s followerId channelId requestId silent).state.channelFollowRequests =
      s.channelFollowRequests := by
  have hrem : isRemoteUser follower.host = false := by simp [isRemoteUser, hlocal]
  have hself : (follower.id == channel.id) = false := beq_eq_false_iff_ne.mpr hnself
  unfold follow
  rw [hf, hc]
  simp only [hrem, Bool.false_and, Bool.false_eq_true, if_false, hnb1, hnb2]
  unfold followResolved
  rw [hprof]
  simp only [hlocked, Bool.true_or, if_true, hne1, hne2, hanc, Bool.false_or,
    Bool.and_false, Bool.false_and, Bool.not_false, Bool.and_true, Bool.true_and,
    Bool.or_false, if_true]
  unfold createFollowRequest
  simp only [User.toRef, Channel.toRef, hself, hnb1, hnb2, hnoreq, Option.isSome_none,
    Bool.false_eq_true, if_false]
  by_cases hch : channel.host.isSome <;>
    simp [isLocalUser, isRemoteUser, hch, hlocal, pushDelivery, pushEvent]

def user2 : User :=
  { id := 2, host := none, inbox := none, sharedInbox := none, isBot := false,
    movedToUri := none, alsoKnownAs := [], followingCount := 0, followersCount := 0 }

def lockedChannel2 : Channel :=
  { id := 2, ownerId := 9, host := none, inbox := none, isLocked := true }

/-- Local user 1 whose account has a prior (migrated-from) identity 3. -/
def movedFollower1 : User :=
  { id := 1, host := none, inbox := none, sharedInbox := none, isBot := false,
    movedToUri := none, alsoKnownAs := [3], followingCount := 0, followersCount := 0 }

def profile2 : Profile := { userId := 2, carefulBot := false, autoAcceptFollowed := false }

/-- State in which local user 1 has no relation to locked channel 2 in either
direction and no block, but user 1's prior identity 3 already holds an edge
to 2. -/
def ancestorEdgeState : State :=
  { emptyState with
      users := [movedFollower1, user2]
      userProfiles := [profile2]
      channels := [lockedChannel2]
      followings := [{ id := 10, followerId := 3, followeeId := 2 }]
      nextId := 100 }

/-- Counterexample to C5 as stated: at `ancestorEdgeState` every hypothesis of
the claim holds (local follower, locked followee, no relation between the
pair in either direction, no block), yet follow creates no FollowRequest —
the migrated-ancestor check auto-accepts instead (spec §4.1 step 6), so the
request store stays empty. -/
theorem follow_locked_no_request_counterexample :
    movedFollower1.host = none ∧ lockedChannel2.isLocked = true ∧
    hasFollowing ancestorEdgeState movedFollower1.id lockedChannel2.id = false ∧
    hasFollowing ancestorEdgeState lockedChannel2.id movedFollower1.id = false ∧
    findFollowRequest ancestorEdgeState lockedChannel2.id movedFollower1.id = none ∧
    checkBlocked ancestorEdgeState movedFollower1.id lockedChannel2.id = false ∧
    checkBlocked ancestorEdgeState lockedChannel2.id movedFollower1.id = false ∧
    (follow ancestorEdgeState 1 2 none false).err = none ∧
    (follow ancestorEdgeState 1 2 none false).state.followRequests = [] := by
  decide

/-- The same pair with the ancestor edge absent. -/
def lockedCleanState : State := { ancestorEdgeState with followings := [] }

/-- Witness for the amended C5 at a concrete input. -/
theorem follow_locked_creates_follow_request_witness :
    (findUser lockedCleanState 1 = some movedFollower1 ∧
      findChannel lockedCleanState 2 = some lockedChannel2 ∧
      movedFollower1.host = none ∧ lockedChannel2.isLocked = true ∧
      checkBlocked lockedCleanState movedFollower1.id lockedChannel2.id = false ∧
      checkBlocked lockedCleanState lockedChannel2.id movedFollower1.id = false ∧
      findProfile lockedCleanState lockedChannel2.id = some profile2 ∧
      hasFollowing lockedCleanState movedFollower1.id lockedChannel2.id = false ∧
      hasFollowing lockedCleanState lockedChannel2.id movedFollower1.id = false ∧
      validateAlsoKnownAs lockedCleanState movedFollower1 lockedChannel2.id = false ∧
      findFollowRequest lockedCleanState lockedChannel2.id movedFollower1.id = none ∧
      movedFollower1.id ≠ lockedChannel2.id) ∧
    ((follow lockedCleanState 1 2 none false).err = none ∧
      (∃ fr, (follow lockedCleanState 1 2 none false).state.followRequests =
          fr :: lockedCleanState.followRequests ∧
          fr.followerId = movedFollower1.id ∧ fr.followeeId = lockedChannel2.id) ∧
      (follow lockedCleanState 1 2 none false).state.followings =
        lockedCleanState.followings ∧
      (follow lockedCleanState 1 2 none false).state.users = lockedCleanState.users ∧
      (follow lockedCleanState 1 2 none false).state.channelFollowRequests =
        lockedCleanState.channelFollowRequests) :=
  ⟨⟨by decide, by decide, by decide, by decide, by decide, by decide, by decide, by decide,
      by decide, by decide, by decide, by decide⟩,
    follow_locked_creates_follow_request lockedCleanState 1 2 none false movedFollower1
      lockedChannel2 profile2 (by decide) (by decide) (by decide) (by decide) (by decide)
      (by decide) (by decide) (by decide) (by decide) (by decide) (by decide) (by decide)⟩


def preexistingRowState : State :=
  { emptyState with
      users := [remoteUser1, user2]
      userProfiles := [profile2]
      channels := [plainChannel2]
      channelFollowRequests := [{ id := 0, channelId := 2, followerId := 1, requestId := none }]
      nextId := 100 }

/-- C4 evaluated at its failing input: a remote follower re-issuing follow while
a row for the pair already exists (the unique-constraint conflict of the
claim).  The conflict is indeed absorbed with no error and no internal follow
event, but the store ends with ZERO Following edges, not exactly one — the
insert targets the channel-follow-request table, never the followings table,
and the conflicting row itself is removed by the find-and-delete that
follows, contradicting the claim's already-followed guarantee. -/
theorem follow_duplicate_remote_no_edge :
    (follow preexistingRowState 1 2 none false).err = none ∧
    (follow preexistingRowState 1 2 none false).state.followings = [] ∧
    (follow preexistingRowState 1 2 none false).state.channelFollowRequests = [] ∧
    (follow preexistingRowState 1 2 none false).state.events = [] := by
  decide

def plainRequest12 : FollowRequest :=
  { id := 0, followerId := 1, followeeId := 2, requestId := none, followerHost := none,
    followerInbox := none, followerSharedInbox := none, followeeHost := none,
    followeeInbox := none, followeeSharedInbox := none }

def pendingRequestState : State :=
  { emptyState with
      users := [localUser1, user2]
      followRequests := [plainRequest12]
      nextId := 100 }

/-- C7 evaluated at its failing input: with a pending FollowRequest for
(follower 1 → followee 2), acceptFollowRequest succeeds, but the
FollowRequest row is still present afterwards and no Following edge exists —
insertFollowingDoc inserts and immediately deletes a channel-follow-request
row instead of materializing the edge, and nothing deletes the pending
request, contradicting the claim's post-state.  (The claim's other half does
hold: a missing request raises the noFollowRequest error, the first branch
of acceptFollowRequest.) -/
theorem acceptFollowRequest_leaves_request_no_edge :
    (acceptFollowRequest pendingRequestState ⟨2, none, none, none⟩ localUser1).err = none ∧
    (acceptFollowRequest pendingRequestState
        ⟨2, none, none, none⟩ localUser1).state.followRequests = [plainRequest12] ∧
    (acceptFollowRequest pendingRequestState
        ⟨2, none, none, none⟩ localUser1).state.followings = [] := by
  decide

/-- Reading back the updated user: updateUser rewrites the row in place when
the update preserves ids. -/
theorem findUser_updateUser_self (s : State) (uid : Nat) (g : User → User)
    (hg : ∀ u, (g u).id = u.id) :
    findUser (updateUser s uid g) uid = (findUser s uid).map g := by
  unfold findUser updateUser
  simp only []
  generalize s.users = l
  induction l with
  | nil => rfl
  | cons a as ih =>
    by_cases h : a.id = uid
    · rw [List.map_cons, if_pos (by simp [h])]
      rw [List.find?_cons_of_pos _ (by simp [hg, h]), List.find?_cons_of_pos _ (by simp [h])]
      rfl
    · rw [List.map_cons, if_neg (by simp [h])]
      rw [List.find?_cons_of_neg _ (by simp [h]), List.find?_cons_of_neg _ (by simp [h])]
      exact ih

/-- updateUser leaves every other user's row unchanged when the update
preserves ids. -/
theorem findUser_updateUser_ne (s : State) (uid v : Nat) (g : User → User)
    (hg : ∀ u, (g u).id = u.id) (hne : v ≠ uid) :
    findUser (updateUser s uid g) v = findUser s v := by
  unfold findUser updateUser
  simp only []
  generalize s.users = l
  induction l with
  | nil => rfl
  | cons a as ih =>
    by_cases h : a.id = uid
    · rw [List.map_cons, if_pos (by simp [h])]
      have hnv : ((g a).id == v) = false := by
        simp [hg, h]
        exact fun hc => hne (hc ▸ h ▸ rfl)
      rw [List.find?_cons_of_neg _ (by simp [hnv]), List.find?_cons_of_neg _ (by
        simp [h]
        exact fun hc => hne (hc ▸ h ▸ rfl))]
      exact ih
    · rw [List.map_cons, if_neg (by simp [h])]
      by_cases hv : a.id = v
      · rw [List.find?_cons_of_pos _ (by simp [hv]), List.find?_cons_of_pos _ (by simp [hv])]
      · rw [List.find?_cons_of_neg _ (by simp [hv]), List.find?_cons_of_neg _ (by simp [hv])]
        exact ih


/-- The slow-path recounts ignore counter rewrites: an id- and
movedToUri-preserving user update does not change them. -/
theorem countNonMovedFollowees_updateUser (s : State) (uid w : Nat) (g : User → User)
    (hg : ∀ u, (g u).id = u.id) (hgm : ∀ u, (g u).movedToUri = u.movedToUri) :
    countNonMovedFollowees (updateUser s uid g) w = countNonMovedFollowees s w := by
  unfold countNonMovedFollowees
  rw [updateUser_followings]
  congr 1
  apply List.filter_congr
  intro f _
  congr 1
  by_cases hfe : f.followeeId = uid
  · rw [hfe, findUser_updateUser_self s uid g hg]
    cases hfu : findUser s uid with
    | none => rfl
    | some fe => simp [hgm]
  · rw [findUser_updateUser_ne s uid f.followeeId g hg hfe]

theorem countNonMovedFollowers_updateUser (s : State) (uid w : Nat) (g : User → User)
    (hg : ∀ u, (g u).id = u.id) (hgm : ∀ u, (g u).movedToUri = u.movedToUri) :
    countNonMovedFollowers (updateUser s uid g) w = countNonMovedFollowers s w := by
  unfold countNonMovedFollowers
  rw [updateUser_followings]
  congr 1
  apply List.filter_congr
  intro f _
  congr 1
  by_cases hfo : f.followerId = uid
  · rw [hfo, findUser_updateUser_self s uid g hg]
    cases hfu : findUser s uid with
    | none => rfl
    | some fo => simp [hgm]
  · rw [findUser_updateUser_ne s uid f.followerId g hg hfo]


@[simp] theorem findUser_pushEvent (s : State) (e : Ev) (x : Nat) :
    findUser (pushEvent s e) x = findUser s x := rfl

@[simp] theorem countNonMovedFollowees_pushEvent (s : State) (e : Ev) (w : Nat) :
    countNonMovedFollowees (pushEvent s e) w = countNonMovedFollowees s w := rfl

@[simp] theorem countNonMovedFollowers_pushEvent (s : State) (e : Ev) (w : Nat) :
    countNonMovedFollowers (pushEvent s e) w = countNonMovedFollowers s w := rfl

/-- C8: the Counter Reconciler on an edge removal.  When neither endpoint
snapshot has movedToUri, it decrements the stored followingCount of the
follower and followersCount of the followee by exactly one.  When at least
one endpoint has migrated, it applies no decrement; instead each endpoint
whose own movedToUri is null gets its stored counters overwritten with the
full recounts: followingCount from the count of its edges whose followee has
not migrated and followersCount from the count of its edges whose follower
has not migrated. -/
theorem decrementFollowing_counter_reconciliation (s : State) (follower followee : User)
    (hne : follower.id ≠ followee.id) :
    (decrementFollowing s follower followee).err = none ∧
    (follower.movedToUri = none → followee.movedToUri = none →
      findUser (decrementFollowing s follower followee).state follower.id =
        (findUser s follower.id).map
          (fun u => { u with followingCount := u.followingCount - 1 }) ∧
      findUser (decrementFollowing s follower followee).state followee.id =
        (findUser s followee.id).map
          (fun u => { u with followersCount := u.followersCount - 1 })) ∧
    (follower.movedToUri.isSome = true ∨ followee.movedToUri.isSome = true →
      (follower.movedToUri = none →
        findUser (decrementFollowing s follower followee).state follower.id =
          (findUser s follower.id).map (fun u =>
            { u with
              followingCount := (countNonMovedFollowees s follower.id : Int)
              followersCount := (countNonMovedFollowers s follower.id : Int) })) ∧
      (followee.movedToUri = none →
        findUser (decrementFollowing s follower followee).state followee.id =
          (findUser s followee.id).map (fun u =>
            { u with
              followingCount := (countNonMovedFollowees s followee.id : Int)
              followersCount := (countNonMovedFollowers s followee.id : Int) }))) := by
  cases hm1 : follower.movedToUri with
  | none =>
    cases hm2 : followee.movedToUri with
    | none =>
      have hfast : decrementFollowing s follower followee =
          ⟨updateUser
            (updateUser (pushEvent s (.internalUnfollow follower.id followee.id)) follower.id
              (fun u => { u with followingCount := u.followingCount - 1 }))
            followee.id (fun u => { u with followersCount := u.followersCount - 1 }), none⟩ := by
        unfold decrementFollowing
        rw [hm1, hm2]
        rfl
      refine ⟨by rw [hfast], ?_, ?_⟩
      · intro _ _
        rw [hfast]
        dsimp only
        constructor
        · rw [findUser_updateUser_ne _ followee.id follower.id
              (fun u => { u with followersCount := u.followersCount - 1 }) (fun u => rfl) hne,
            findUser_updateUser_self _ follower.id
              (fun u => { u with followingCount := u.followingCount - 1 }) (fun u => rfl),
            findUser_pushEvent]
        · rw [findUser_updateUser_self _ followee.id
              (fun u => { u with followersCount := u.followersCount - 1 }) (fun u => rfl),
            findUser_updateUser_ne _ follower.id followee.id
              (fun u => { u with followingCount := u.followingCount - 1 }) (fun u => rfl)
              (Ne.symm hne),
            findUser_pushEvent]
      · intro h
        rcases h with h | h <;> simp [hm1, hm2] at h
    | some m2 =>
      have hslow : decrementFollowing s follower followee =
          ⟨updateUser (pushEvent s (.internalUnfollow follower.id followee.id)) follower.id
            (fun x =>
              { x with
                followingCount :=
                  (countNonMovedFollowees s follower.id : Int)
                followersCount :=
                  (countNonMovedFollowers s follower.id : Int) }), none⟩ := by
        unfold decrementFollowing adjustMovedUserCounts
        rw [hm1, hm2]
        rfl
      refine ⟨by rw [hslow], ?_, ?_⟩
      · intro _ h2
        simp at h2
      · intro _
        constructor
        · intro _
          rw [hslow]
          dsimp only
          rw [findUser_updateUser_self _ follower.id
            (fun x =>
              { x with
                followingCount := (countNonMovedFollowees s follower.id : Int)
                followersCount := (countNonMovedFollowers s follower.id : Int) })
            (fun u => rfl), findUser_pushEvent]
        · intro h2
          simp at h2
  | some m1 =>
    cases hm2 : followee.movedToUri with
    | none =>
      have hslow : decrementFollowing s follower followee =
          ⟨updateUser (pushEvent s (.internalUnfollow follower.id followee.id)) followee.id
            (fun x =>
              { x with
                followingCount :=
                  (countNonMovedFollowees s followee.id : Int)
                followersCount :=
                  (countNonMovedFollowers s followee.id : Int) }), none⟩ := by
        unfold decrementFollowing adjustMovedUserCounts
        rw [hm1, hm2]
        rfl
      refine ⟨by rw [hslow], ?_, ?_⟩
      · intro h1 _
        simp at h1
      · intro _
        constructor
        · intro h1
          simp at h1
        · intro _
          rw [hslow]
          dsimp only
          rw [findUser_updateUser_self _ followee.id
            (fun x =>
              { x with
                followingCount := (countNonMovedFollowees s followee.id : Int)
                followersCount := (countNonMovedFollowers s followee.id : Int) })
            (fun u => rfl), findUser_pushEvent]
    | some m2 =>
      have hnoop : decrementFollowing s follower followee =
          ⟨pushEvent s (.internalUnfollow follower.id followee.id), none⟩ := by
        unfold decrementFollowing adjustMovedUserCounts
        rw [hm1, hm2]
        rfl
      refine ⟨by rw [hnoop], ?_, ?_⟩
      · intro h1 _
        simp at h1
      · intro _
        constructor
        · intro h1
          simp at h1
        · intro h2
          simp at h2


def movedUser2 : User := { user2 with movedToUri := some 9 }

def migrationState : State :=
  { emptyState with
      users := [localUser1, movedUser2]
      followings := [{ id := 1, followerId := 1, followeeId := 2 }] }

/-- Witness for C8 at a concrete input: user 2 has migrated, so removing the
edge 1 → 2 takes the slow path and overwrites user 1's counters with the
recounts. -/
theorem decrementFollowing_counter_reconciliation_witness :
    localUser1.id ≠ movedUser2.id ∧
    ((decrementFollowing migrationState localUser1 movedUser2).err = none ∧
      (localUser1.movedToUri = none → movedUser2.movedToUri = none →
        findUser (decrementFollowing migrationState localUser1 movedUser2).state localUser1.id =
          (findUser migrationState localUser1.id).map
            (fun u => { u with followingCount := u.followingCount - 1 }) ∧
        findUser (decrementFollowing migrationState localUser1 movedUser2).state movedUser2.id =
          (findUser migrationState movedUser2.id).map
            (fun u => { u with followersCount := u.followersCount - 1 })) ∧
      (localUser1.movedToUri.isSome = true ∨ movedUser2.movedToUri.isSome = true →
        (localUser1.movedToUri = none →
          findUser (decrementFollowing migrationState localUser1 movedUser2).state
              localUser1.id =
            (findUser migrationState localUser1.id).map (fun u =>
              { u with
                followingCount := (countNonMovedFollowees migrationState localUser1.id : Int)
                followersCount :=
                  (countNonMovedFollowers migrationState localUser1.id : Int) })) ∧
        (movedUser2.movedToUri = none →
          findUser (decrementFollowing migrationState localUser1 movedUser2).state
              movedUser2.id =
            (findUser migrationState movedUser2.id).map (fun u =>
              { u with
                followingCount := (countNonMovedFollowees migrationState movedUser2.id : Int)
                followersCount :=
                  (countNonMovedFollowers migrationState movedUser2.id : Int) })))) :=
  ⟨by decide,
    decrementFollowing_counter_reconciliation migrationState localUser1 movedUser2 (by decide)⟩


/-- t's relationship stores are contained in s's: every edge of t is an edge of
s and every pending row of t (either request store) is a row of s. -/
def SubRel (s t : State) : Prop :=
  (∀ a b, hasFollowing t a b = true → hasFollowing s a b = true) ∧
  (∀ r ∈ t.followRequests, r ∈ s.followRequests) ∧
  (∀ r ∈ t.channelFollowRequests, r ∈ s.channelFollowRequests)

/-- The exclusivity invariant transfers down SubRel. -/
theorem Inv_of_subRel (s t : State) (hsub : SubRel s t) (h : Inv s) : Inv t := by
  obtain ⟨hE, hR, hC⟩ := hsub
  obtain ⟨h1, h2⟩ := h
  constructor
  · intro r hr
    cases hF : hasFollowing t r.followerId r.followeeId with
    | false => rfl
    | true => exact absurd (hE _ _ hF) (by rw [h1 r (hR r hr)]; simp)
  · intro r hr
    cases hF : hasFollowing t r.followerId r.channelId with
    | false => rfl
    | true => exact absurd (hE _ _ hF) (by rw [h2 r (hC r hr)]; simp)

/-- Fields-equal states are SubRel. -/
theorem subRel_of_fields (s t : State)
    (hf : t.followings = s.followings)
    (hr : t.followRequests = s.followRequests)
    (hc : t.channelFollowRequests = s.channelFollowRequests) : SubRel s t := by
  refine ⟨?_, ?_, ?_⟩
  · intro a b
    unfold hasFollowing
    rw [hf]
    exact id
  · intro r
    rw [hr]
    exact id
  · intro r
    rw [hc]
    exact id

theorem subRel_refl (s : State) : SubRel s s :=
  subRel_of_fields s s rfl rfl rfl

theorem subRel_trans (s t u : State) (h1 : SubRel s t) (h2 : SubRel t u) : SubRel s u :=
  ⟨fun a b h => h1.1 a b (h2.1 a b h),
   fun r hr => h1.2.1 r (h2.2.1 r hr),
   fun r hr => h1.2.2 r (h2.2.2 r hr)⟩


theorem subRel_deleteFollowingById (s : State) (fid : Nat) :
    SubRel s (deleteFollowingById s fid) := by
  refine ⟨?_, fun r => id, fun r => id⟩
  intro a b
  unfold hasFollowing deleteFollowingById
  simp only [List.any_eq_true]
  rintro ⟨f, hf, hp⟩
  exact ⟨f, (List.mem_filter.mp hf).1, hp⟩

theorem subRel_deleteFollowRequestPair (s : State) (a b : Nat) :
    SubRel s (deleteFollowRequestPair s a b) := by
  refine ⟨fun x y => id, ?_, fun r => id⟩
  intro r hr
  exact (List.mem_filter.mp hr).1

theorem subRel_deleteFollowRequestById (s : State) (rid : Nat) :
    SubRel s (deleteFollowRequestById s rid) := by
  refine ⟨fun x y => id, ?_, fun r => id⟩
  intro r hr
  exact (List.mem_filter.mp hr).1

theorem subRel_deleteChannelFollowRequestPair (s : State) (a b : Nat) :
    SubRel s (deleteChannelFollowRequestPair s a b) := by
  refine ⟨fun x y => id, fun r => id, ?_⟩
  intro r hr
  exact (List.mem_filter.mp hr).1

theorem subRel_pushEvent (s : State) (e : Ev) : SubRel s (pushEvent s e) :=
  subRel_of_fields s _ rfl rfl rfl

theorem subRel_pushDelivery (s : State) (d : Delivery) : SubRel s (pushDelivery s d) :=
  subRel_of_fields s _ rfl rfl rfl

theorem subRel_unblock (s : State) (a b : Nat) : SubRel s (unblock s a b) :=
  subRel_of_fields s _ rfl rfl rfl

theorem subRel_updateUser (s : State) (uid : Nat) (g : User → User) :
    SubRel s (updateUser s uid g) :=
  subRel_of_fields s _ rfl rfl rfl


/-- Filtering out the pair from a list headed by a pair-matching row lands in
the tail. -/
theorem mem_filter_cons_pair (row : ChannelFollowRequest) (l : List ChannelFollowRequest)
    (a b : Nat) (hrow : (row.channelId == a && row.followerId == b) = true) :
    ∀ r ∈ (row :: l).filter (fun r => !(r.channelId == a && r.followerId == b)), r ∈ l := by
  intro r hr
  obtain ⟨hm, hp⟩ := List.mem_filter.mp hr
  rcases List.mem_cons.mp hm with h | h
  · rw [h, hrow] at hp
    cases hp
  · exact h

/-- insertFollowingDoc never grows the relationship stores: the followings and
followRequests lists are returned unchanged, and every remaining
channel-follow-request row was already stored (the row the method itself
inserts is deleted again by its own find-and-delete). -/
theorem findCFR_insert_self (s : State) (a b : Nat) :
    findChannelFollowRequest
      { s with
          channelFollowRequests :=
            { id := s.nextId, channelId := a, followerId := b, requestId := none } ::
              s.channelFollowRequests
          nextId := s.nextId + 1 } a b =
      some { id := s.nextId, channelId := a, followerId := b, requestId := none } := by
  unfold findChannelFollowRequest
  exact List.find?_cons_of_pos _ (by simp)

theorem insertFollowingDoc_subRel (s : State) (followee : FolloweeRef) (follower : ActorRef)
    (silent : Bool) : SubRel s (insertFollowingDoc s followee follower silent).state := by
  unfold insertFollowingDoc
  by_cases hself : (follower.id == followee.ownerId) = true
  · rw [if_pos hself]
    exact subRel_refl s
  · rw [if_neg hself]
    simp only []
    by_cases hdup : (findChannelFollowRequest s followee.id follower.id).isSome = true
    · obtain ⟨row, hrow⟩ := Option.isSome_iff_exists.mp hdup
      by_cases hrem : isRemoteUser follower.host = true
      · simp only [hrow, Option.isSome_some, hrem, Bool.not_true, Bool.and_false,
          Bool.false_eq_true, if_false, if_true]
        exact subRel_deleteChannelFollowRequestPair s followee.id follower.id
      · have hremf : isRemoteUser follower.host = false := by
          simpa using hrem
        simp only [hrow, Option.isSome_some, hremf, Bool.not_false, Bool.true_and, if_true]
        exact subRel_refl s
    · have hdupf : (findChannelFollowRequest s followee.id follower.id).isSome = false := by
        simpa using hdup
      simp only [hdupf, Bool.false_and, Bool.false_eq_true, if_false]
      rw [findCFR_insert_self]
      simp only []
      split
      all_goals
        refine subRel_trans s _ _ ?_ (subRel_pushEvent _ _)
      all_goals
        refine ⟨fun a b => id, fun r => id, ?_⟩
      all_goals
        intro r hr
        exact mem_filter_cons_pair _ s.channelFollowRequests followee.id follower.id
          (by simp) r hr


/-- Prepending one request row whose pair has no edge preserves the
invariant, when the edge stores agree. -/
theorem Inv_consFollowRequest (s t : State) (fr : FollowRequest)
    (hfol : t.followings = s.followings)
    (hreq : t.followRequests = fr :: s.followRequests)
    (hcfr : t.channelFollowRequests = s.channelFollowRequests)
    (hnoedge : hasFollowing s fr.followerId fr.followeeId = false)
    (h : Inv s) : Inv t := by
  obtain ⟨h1, h2⟩ := h
  have hhf : ∀ a b, hasFollowing t a b = hasFollowing s a b := by
    intro a b
    unfold hasFollowing
    rw [hfol]
  constructor
  · intro r hrm
    rw [hreq] at hrm
    rw [hhf]
    rcases List.mem_cons.mp hrm with he | he
    · rw [he]
      exact hnoedge
    · exact h1 r he
  · intro r hrm
    rw [hcfr] at hrm
    rw [hhf]
    exact h2 r hrm

/-- createFollowRequest preserves the invariant whenever the pair it would
record has no established edge (every early-exit path returns the state
unchanged; the insert path adds exactly the edge-free pair's row). -/
theorem createFollowRequest_inv (s : State) (follower followee : ActorRef)
    (requestId : Option Nat)
    (hnoedge : hasFollowing s follower.id followee.id = false)
    (h : Inv s) : Inv (createFollowRequest s follower followee requestId).state := by
  unfold createFollowRequest
  by_cases hself : (follower.id == followee.id) = true
  · rw [if_pos hself]
    exact h
  · rw [if_neg hself]
    simp only []
    by_cases hb1 : checkBlocked s follower.id followee.id = true
    · simp only [hb1, if_true]
      exact h
    · have hb1f : checkBlocked s follower.id followee.id = false := by simpa using hb1
      by_cases hb2 : checkBlocked s followee.id follower.id = true
      · simp only [hb1f, Bool.false_eq_true, if_false, hb2, if_true]
        exact h
      · have hb2f : checkBlocked s followee.id follower.id = false := by simpa using hb2
        by_cases hdup : (findFollowRequest s followee.id follower.id).isSome = true
        · simp only [hb1f, hb2f, Bool.false_eq_true, if_false, hdup, if_true]
          exact h
        · have hdupf : (findFollowRequest s followee.id follower.id).isSome = false := by
            simpa using hdup
          simp only [hb1f, hb2f, hdupf, Bool.false_eq_true, if_false]
          refine Inv_consFollowRequest s _
            { id := s.nextId, followerId := follower.id, followeeId := followee.id,
              requestId := requestId, followerHost := follower.host,
              followerInbox := if isRemoteUser follower.host then follower.inbox else none,
              followerSharedInbox :=
                if isRemoteUser follower.host then follower.sharedInbox else none,
              followeeHost := followee.host,
              followeeInbox := if isRemoteUser followee.host then followee.inbox else none,
              followeeSharedInbox :=
                if isRemoteUser followee.host then followee.sharedInbox else none }
            ?_ ?_ ?_ ?_ h
          · split <;> split <;> rfl
          · split <;> split <;> rfl
          · split <;> split <;> rfl
          · exact hnoedge


/-- followResolved preserves the invariant: the request path only runs when the
auto-accept scan found no edge for the pair, and the edge path never grows
any store. -/
theorem followResolved_inv (s : State) (follower : User) (channel : Channel)
    (requestId : Option Nat) (silent : Bool) (h : Inv s) :
    Inv (followResolved s follower channel requestId silent).state := by
  unfold followResolved
  cases hp : findProfile s channel.id with
  | none => exact h
  | some prof =>
    simp only []
    split
    · split
      · rename_i hreq
        rw [Bool.not_eq_true'] at hreq
        rw [Bool.or_eq_false_iff] at hreq
        obtain ⟨h1, _⟩ := hreq
        rw [Bool.or_eq_false_iff] at h1
        exact createFollowRequest_inv s follower.toRef channel.toRef requestId h1.1 h
      · have hins := Inv_of_subRel s _
          (insertFollowingDoc_subRel s ⟨channel.id, channel.ownerId⟩ follower.toRef silent) h
        split
        · exact hins
        · split
          · exact Inv_of_subRel _ _ (subRel_pushDelivery _ _) hins
          · exact hins
    · simp only [Bool.false_eq_true, if_false]
      have hins := Inv_of_subRel s _
        (insertFollowingDoc_subRel s ⟨channel.id, channel.ownerId⟩ follower.toRef silent) h
      split
      · exact hins
      · split
        · exact Inv_of_subRel _ _ (subRel_pushDelivery _ _) hins
        · exact hins

/-- follow preserves the invariant in every branch. -/
theorem follow_inv (s : State) (followerId channelId : Nat) (requestId : Option Nat)
    (silent : Bool) (h : Inv s) :
    Inv (follow s followerId channelId requestId silent).state := by
  unfold follow
  split
  · simp only []
    split
    · exact Inv_of_subRel _ _ (subRel_pushDelivery _ _) h
    · split
      · exact followResolved_inv _ _ _ _ _ (Inv_of_subRel _ _ (subRel_unblock _ _ _) h)
      · split
        · exact h
        · split
          · exact h
          · exact followResolved_inv _ _ _ _ _ h
  · exact h

/-- unfollow always returns the state unchanged (both guard branches). -/
theorem unfollow_state_eq (s : State) (channel : Channel) (followee : ActorRef)
    (silent : Bool) : unfollow s channel followee silent = ⟨s, none⟩ := by
  unfold unfollow
  cases findChannelFollowRequest s followee.id channel.id <;> simp

/-- cancelFollowRequest preserves the invariant: it only enqueues, deletes
rows and emits. -/
theorem cancelFollowRequest_inv (s : State) (followee follower : ActorRef) (h : Inv s) :
    Inv (cancelFollowRequest s followee follower).state := by
  unfold cancelFollowRequest
  simp only []
  split <;> split
  all_goals
    first
    | exact h
    | exact Inv_of_subRel _ _ (subRel_pushDelivery _ _) h
    | (refine Inv_of_subRel s _ ⟨fun a b => id, ?_, fun r => id⟩ h
       intro r hr
       exact (List.mem_filter.mp hr).1)

/-- acceptFollowRequest preserves the invariant: insertFollowingDoc never grows
the stores and the rest only enqueues and emits. -/
theorem acceptFollowRequest_inv (s : State) (followee : ActorRef) (follower : User)
    (h : Inv s) : Inv (acceptFollowRequest s followee follower).state := by
  unfold acceptFollowRequest
  split
  · exact h
  · have hins := Inv_of_subRel s _
      (insertFollowingDoc_subRel s ⟨followee.id, followee.id⟩ follower.toRef false) h
    simp only []
    split
    · exact hins
    · split
      · exact Inv_of_subRel _ _
          (subRel_trans _ _ _ (subRel_pushDelivery _ _) (subRel_pushEvent _ _)) hins
      · exact Inv_of_subRel _ _ (subRel_pushEvent _ _) hins

/-- The accept-all loop preserves the invariant request by request. -/
theorem acceptAllGo_inv (user : ActorRef) (l : List FollowRequest) :
    ∀ s : State, Inv s → Inv (acceptAllGo user s l).state := by
  induction l with
  | nil => exact fun s h => h
  | cons req rest ih =>
    intro s h
    unfold acceptAllGo
    split
    · exact h
    · exact ih _ (acceptFollowRequest_inv _ _ _ h)

/-- acceptAllFollowRequests preserves the invariant. -/
theorem acceptAllFollowRequests_inv (s : State) (user : ActorRef) (h : Inv s) :
    Inv (acceptAllFollowRequests s user).state :=
  acceptAllGo_inv user _ s h

/-- rejectFollowRequest preserves the invariant: it deletes a request row and
emits. -/
theorem rejectFollowRequest_inv (s : State) (channel : Channel) (follower : ActorRef)
    (h : Inv s) : Inv (rejectFollowRequest s channel follower).state := by
  unfold rejectFollowRequest removeFollowRequest
  simp only []
  split <;> split
  all_goals
    first
    | exact h
    | exact Inv_of_subRel _ _ (subRel_pushEvent _ _) h
    | exact Inv_of_subRel _ _ (subRel_deleteFollowRequestById _ _) h
    | (refine Inv_of_subRel s _ ⟨fun a b => id, ?_, fun r => id⟩ h
       intro r hr
       exact (List.mem_filter.mp hr).1)

/-- The Counter Reconciler touches only users and events. -/
theorem decrementFollowing_subRel (s : State) (follower followee : User) :
    SubRel s (decrementFollowing s follower followee).state := by
  refine subRel_of_fields s _ ?_ ?_ ?_ <;>
    (unfold decrementFollowing adjustMovedUserCounts; simp only []; split)
  · rfl
  · split <;> split <;> rfl
  · rfl
  · split <;> split <;> rfl
  · rfl
  · split <;> split <;> rfl

/-- removeFollow preserves the invariant: it deletes an edge and reconciles
counters. -/
theorem removeFollow_inv (s : State) (followee follower : ActorRef) (h : Inv s) :
    Inv (removeFollow s followee follower).state := by
  unfold removeFollow
  split
  · exact h
  · split
    · refine Inv_of_subRel s _ ?_ h
      exact subRel_trans s _ _ (subRel_deleteFollowingById s _) (decrementFollowing_subRel _ _ _)
    · exact h

/-- rejectFollow preserves the invariant. -/
theorem rejectFollow_inv (s : State) (channel : Channel) (follower : ActorRef)
    (h : Inv s) : Inv (rejectFollow s channel follower).state := by
  unfold rejectFollow
  split
  · exact Inv_of_subRel _ _ (subRel_pushEvent _ _) (removeFollow_inv s channel.toRef follower h)
  · exact removeFollow_inv s channel.toRef follower h


/-- Side condition of the amended C1: a direct createFollowRequest call must
not target a pair that already holds a Following edge (no other operation
needs a condition; follow's own call of createFollowRequest is guarded by
its auto-accept scan). -/
def opEdgeGuard (s : State) : Op → Prop
  | .createFollowRequest follower followee _ => hasFollowing s follower.id followee.id = false
  | _ => True

/-- C1 (amended): starting from a state where no ordered pair has both a
pending request (in either request store) and an established Following edge,
every Orchestrator operation preserves that exclusivity — with the one
proviso that a direct createFollowRequest call does not target a pair that
already has an edge (the method inserts the request without consulting the
edge store; see the counterexample). -/
theorem applyOp_preserves_exclusivity (s : State) (op : Op) (h : Inv s)
    (hguard : opEdgeGuard s op) : Inv (applyOp s op).state := by
  cases op with
  | follow a b rid silent => exact follow_inv s a b rid silent h
  | unfollow channel followee silent =>
    show Inv (unfollow s channel followee silent).state
    rw [unfollow_state_eq s channel followee silent]
    exact h
  | createFollowRequest follower followee rid =>
    exact createFollowRequest_inv s follower followee rid hguard h
  | cancelFollowRequest followee follower => exact cancelFollowRequest_inv s followee follower h
  | acceptFollowRequest followee follower => exact acceptFollowRequest_inv s followee follower h
  | acceptAllFollowRequests user => exact acceptAllFollowRequests_inv s user h
  | rejectFollowRequest channel follower => exact rejectFollowRequest_inv s channel follower h
  | rejectFollow channel follower => exact rejectFollow_inv s channel follower h

/-- A state holding only the edge 1 → 2 (the invariant holds), and a direct
createFollowRequest for that same pair. -/
def edgeOnlyState : State :=
  { emptyState with
      users := [localUser1, user2]
      followings := [{ id := 5, followerId := 1, followeeId := 2 }] }

def directRequestOp : Op :=
  .createFollowRequest ⟨1, none, none, none⟩ ⟨2, none, none, none⟩ none

/-- Counterexample to C1 as stated: from an invariant-satisfying state holding
the Following edge 1 → 2, the Orchestrator operation
createFollowRequest(1 → 2) completes and leaves the store with BOTH the
pending FollowRequest and the Following edge for the pair — the method
checks self, blocking and request-uniqueness but never the edge store. -/
theorem exclusivity_counterexample :
    Inv edgeOnlyState ∧ ¬ Inv (applyOp edgeOnlyState directRequestOp).state := by
  constructor
  · decide
  · decide

/-- A state with one pending request and no edge, and a follow operation. -/
def invWitState : State :=
  { emptyState with
      users := [localUser1, user2]
      userProfiles := [profile2]
      channels := [lockedChannel2]
      followRequests := [plainRequest12] }

def invWitOp : Op := .follow 1 2 none false

/-- Witness for the amended C1 at a concrete input. -/
theorem applyOp_preserves_exclusivity_witness :
    Inv invWitState ∧ opEdgeGuard invWitState invWitOp ∧
      Inv (applyOp invWitState invWitOp).state :=
  ⟨by decide, True.intro,
    applyOp_preserves_exclusivity invWitState invWitOp (by decide) True.intro⟩

end ChannelFollow
